import Mathlib

/-!
# Thread lifecycle of `crypto/thread/arch/thread_posix.c`

A shallow embedding of the POSIX thread wrapper: the start thunk, spawn, join
and terminate, as pure functions on an explicit `CRYPTO_THREAD` record.

* The replies of the operating system (`OPENSSL_zalloc`, `pthread_create`,
  `pthread_join`, `pthread_cancel`) are arguments of the functions.
* Every function returns, next to the C return value and the updated thread,
  the list of native calls it issued, in program order.
* `ossl_crypto_mutex_lock` / `ossl_crypto_mutex_unlock` bracket the state
  accesses and have no effect on a single thread of control; they are left out.
* The condition-variable loop of join is driven by a list of wake-ups, each of
  which either is spurious or carries the completion of the start thunk.
-/

namespace ThreadPosix

/-- Addresses. The null pointer is address zero. -/
abbrev Ptr := Nat

/-- The null pointer. -/
def NULL : Ptr := 0

/-- The result payload of a routine, opaque to this unit. -/
abbrev CRYPTO_THREAD_RETVAL := Nat

/-- Constants that `thread_posix.c` takes from headers which are not part of
the sources: the bit positions of the three lifecycle flags and the distance
between a flag and its error variant (`internal/thread_arch.h`), and the value
of `PTHREAD_CANCELED` (`pthread.h`). They are parameters of the development. -/
structure Platform where
  finished_bit : Nat
  joined_bit : Nat
  terminated_bit : Nat
  error_shift : Nat
  PTHREAD_CANCELED : Ptr
deriving DecidableEq, Repr

/-- The six flags (three lifecycle flags, three error variants) occupy six
different bits of the state word. -/
def Platform.WellFormed (P : Platform) : Prop :=
  P.finished_bit ≠ P.joined_bit ∧ P.finished_bit ≠ P.terminated_bit ∧
  P.joined_bit ≠ P.terminated_bit ∧
  P.finished_bit + P.error_shift ≠ P.finished_bit ∧
  P.finished_bit + P.error_shift ≠ P.joined_bit ∧
  P.finished_bit + P.error_shift ≠ P.terminated_bit ∧
  P.joined_bit + P.error_shift ≠ P.finished_bit ∧
  P.joined_bit + P.error_shift ≠ P.joined_bit ∧
  P.joined_bit + P.error_shift ≠ P.terminated_bit ∧
  P.terminated_bit + P.error_shift ≠ P.finished_bit ∧
  P.terminated_bit + P.error_shift ≠ P.joined_bit ∧
  P.terminated_bit + P.error_shift ≠ P.terminated_bit

instance (P : Platform) : Decidable P.WellFormed := by
  unfold Platform.WellFormed; infer_instance

/-- The fields of `CRYPTO_THREAD` that `thread_posix.c` reads or writes.
`routine` and `data` are represented by the value the routine returns;
`statelock` and `condvar` by the wake-up list of join. -/
structure CRYPTO_THREAD where
  state : Nat
  retval : CRYPTO_THREAD_RETVAL
  handle : Ptr
  joinable : Int
deriving DecidableEq, Repr

/-- Native calls issued by the functions of this unit. -/
inductive Event where
  | condvar_wait
  | condvar_broadcast
  | pthread_create (handle : Ptr) (detached : Bool)
  | pthread_join (handle : Ptr)
  | pthread_cancel (handle : Ptr)
  | OPENSSL_free (p : Ptr)
deriving DecidableEq, Repr

/-- Modelled from the spec: `CRYPTO_THREAD_FINISHED` of the missing header
`internal/thread_arch.h`, one bit of the state bitmask. -/
def CRYPTO_THREAD_FINISHED (P : Platform) : Nat := 1 <<< P.finished_bit

/-- Modelled from the spec: `CRYPTO_THREAD_JOINED` of the missing header
`internal/thread_arch.h`, one bit of the state bitmask. -/
def CRYPTO_THREAD_JOINED (P : Platform) : Nat := 1 <<< P.joined_bit

/-- Modelled from the spec: `CRYPTO_THREAD_TERMINATED` of the missing header
`internal/thread_arch.h`, one bit of the state bitmask. -/
def CRYPTO_THREAD_TERMINATED (P : Platform) : Nat := 1 <<< P.terminated_bit

/-- Modelled from the spec: the macro `CRYPTO_THREAD_GET_STATE(THREAD, FLAG)`
of the missing header, `(THREAD)->state & (FLAG)`. -/
def CRYPTO_THREAD_GET_STATE (thread : CRYPTO_THREAD) (flag : Nat) : Nat :=
  thread.state &&& flag

/-- Modelled from the spec: the macro `CRYPTO_THREAD_GET_ERROR(THREAD, FLAG)`
of the missing header; the error variant of a flag is the flag moved up by
the error shift. -/
def CRYPTO_THREAD_GET_ERROR (P : Platform) (thread : CRYPTO_THREAD) (flag : Nat) : Nat :=
  (thread.state >>> P.error_shift) &&& flag

/-- Modelled from the spec: the macro `CRYPTO_THREAD_SET_STATE(THREAD, FLAG)`
of the missing header, `(THREAD)->state |= (FLAG)`. -/
def CRYPTO_THREAD_SET_STATE (thread : CRYPTO_THREAD) (flag : Nat) : CRYPTO_THREAD :=
  { thread with state := thread.state ||| flag }

/-- Modelled from the spec: the macro `CRYPTO_THREAD_UNSET_STATE(THREAD, FLAG)`
of the missing header, `(THREAD)->state &= ~(FLAG)`. On natural numbers the
bits of `flag` are removed by xor with the bits that are set. -/
def CRYPTO_THREAD_UNSET_STATE (thread : CRYPTO_THREAD) (flag : Nat) : CRYPTO_THREAD :=
  { thread with state := thread.state ^^^ (thread.state &&& flag) }

/-- Modelled from the spec: the macro `CRYPTO_THREAD_SET_ERROR(THREAD, FLAG)`
of the missing header: sets the error variant of `flag`. -/
def CRYPTO_THREAD_SET_ERROR (P : Platform) (thread : CRYPTO_THREAD) (flag : Nat) :
    CRYPTO_THREAD :=
  CRYPTO_THREAD_SET_STATE thread (flag <<< P.error_shift)

/-- Modelled from the spec: the macro `CRYPTO_THREAD_UNSET_ERROR(THREAD, FLAG)`
of the missing header: clears the error variant of `flag`. -/
def CRYPTO_THREAD_UNSET_ERROR (P : Platform) (thread : CRYPTO_THREAD) (flag : Nat) :
    CRYPTO_THREAD :=
  CRYPTO_THREAD_UNSET_STATE thread (flag <<< P.error_shift)

/-! ## The start thunk -/

/-- The function `thread_start_thunk`, from the return of the routine on (lines 29-33):
`ret` is the value `thread->routine(thread->data)` returned. Sets FINISHED,
stores the result, broadcasts the condition variable. -/
def thread_start_thunk (P : Platform) (thread : CRYPTO_THREAD) (ret : CRYPTO_THREAD_RETVAL) :
    CRYPTO_THREAD × List Event :=
  let thread := CRYPTO_THREAD_SET_STATE thread (CRYPTO_THREAD_FINISHED P)
  let thread := { thread with retval := ret }
  (thread, [Event.condvar_broadcast])

/-! ## Spawn -/

/-- Return value, thread and native calls of spawn. -/
structure SpawnResult where
  ret : Int
  thread : CRYPTO_THREAD
  events : List Event
deriving DecidableEq, Repr

/-- The function `ossl_crypto_thread_native_spawn`. `zalloc` is the pointer returned by
`OPENSSL_zalloc`, `create_rc` the return value of `pthread_create`. -/
def ossl_crypto_thread_native_spawn (thread : CRYPTO_THREAD) (zalloc : Ptr) (create_rc : Int) :
    SpawnResult :=
  let handle := zalloc
  if handle = NULL then
    -- fail:
    { ret := 0, thread := { thread with handle := NULL },
      events := [Event.OPENSSL_free handle] }
  else
    let detached := decide (thread.joinable = 0)
    let ret := create_rc
    if ret ≠ 0 then
      -- fail:
      { ret := 0, thread := { thread with handle := NULL },
        events := [Event.pthread_create handle detached, Event.OPENSSL_free handle] }
    else
      { ret := 1, thread := { thread with handle := handle },
        events := [Event.pthread_create handle detached] }

/-! ## Join -/

/-- The reply of `pthread_join`: its return value and the thread result it
stores through its second argument. -/
structure JoinReply where
  rc : Int
  thread_retval : Ptr
deriving DecidableEq, Repr

/-- Return value, thread, output slot and native calls of join. The output
slot is `none` for a null `retval` pointer and `some v` for a slot holding
`v`. The thread is `none` when join was called on a null pointer. -/
structure JoinResult where
  ret : Int
  thread : Option CRYPTO_THREAD
  retval : Option CRYPTO_THREAD_RETVAL
  events : List Event
deriving DecidableEq, Repr

/-- What a return of `ossl_crypto_condvar_wait` finds: `none` is a wake-up
with the state as it was, `some r` is a wake-up after the start thunk
completed with result `r`. -/
def wake (P : Platform) (thread : CRYPTO_THREAD) : Option CRYPTO_THREAD_RETVAL → CRYPTO_THREAD
  | none => thread
  | some r => (thread_start_thunk P thread r).1

/-- The loop of lines 82-83: wait on the condition variable until FINISHED is
set. The result is `none` when the wake-ups are used up with FINISHED still
clear: the call stays blocked. -/
def join_wait (P : Platform) :
    List (Option CRYPTO_THREAD_RETVAL) → CRYPTO_THREAD → List Event →
    Option (CRYPTO_THREAD × List Event)
  | [], thread, events =>
    if CRYPTO_THREAD_GET_STATE thread (CRYPTO_THREAD_FINISHED P) ≠ 0 then some (thread, events)
    else none
  | w :: ws, thread, events =>
    if CRYPTO_THREAD_GET_STATE thread (CRYPTO_THREAD_FINISHED P) ≠ 0 then some (thread, events)
    else join_wait P ws (wake P thread w) (events ++ [Event.condvar_wait])

/-- The code at label `pass:` of join (lines 100-108). -/
def join_pass (P : Platform) (thread : CRYPTO_THREAD) (retval : Option CRYPTO_THREAD_RETVAL)
    (events : List Event) : JoinResult :=
  let retval := match retval with
    | none => none
    | some _ => some thread.retval
  let thread := CRYPTO_THREAD_UNSET_ERROR P thread (CRYPTO_THREAD_JOINED P)
  let thread := CRYPTO_THREAD_SET_STATE thread (CRYPTO_THREAD_JOINED P)
  { ret := 1, thread := some thread, retval := retval, events := events }

/-- The code at label `fail:` of join (lines 110-114). -/
def join_fail (P : Platform) (thread : CRYPTO_THREAD) (retval : Option CRYPTO_THREAD_RETVAL)
    (events : List Event) : JoinResult :=
  let thread := CRYPTO_THREAD_SET_ERROR P thread (CRYPTO_THREAD_JOINED P)
  { ret := 0, thread := some thread, retval := retval, events := events }

/-- The function `ossl_crypto_thread_native_join`. `native` is the reply of `pthread_join`
should it be called, `wakeups` what the returns of the condition-variable
wait find. The result is `none` when the call never returns. -/
def ossl_crypto_thread_native_join (P : Platform) (thread : Option CRYPTO_THREAD)
    (retval : Option CRYPTO_THREAD_RETVAL) (native : JoinReply)
    (wakeups : List (Option CRYPTO_THREAD_RETVAL)) : Option JoinResult :=
  match thread with
  | none => some { ret := 0, thread := none, retval := retval, events := [] }
  | some thread =>
    let req_state_mask := CRYPTO_THREAD_TERMINATED P ||| CRYPTO_THREAD_JOINED P
    if CRYPTO_THREAD_GET_STATE thread req_state_mask ≠ 0 then
      some (join_pass P thread retval [])
    else
      match join_wait P wakeups thread [] with
      | none => none
      | some (thread, events) =>
        let handle := thread.handle
        if handle = NULL then
          some (join_fail P thread retval events)
        else
          let events := events ++ [Event.pthread_join handle]
          if native.rc ≠ 0 then
            some (join_fail P thread retval events)
          else if native.thread_retval ≠ NULL then
            some (join_fail P thread retval events)
          else
            some (join_pass P thread retval events)

/-! ## Terminate -/

/-- Return value, thread and native calls of terminate. The thread is `none`
when terminate was called on a null pointer. -/
structure TerminateResult where
  ret : Int
  thread : Option CRYPTO_THREAD
  events : List Event
deriving DecidableEq, Repr

/-- The code at label `terminated:` of terminate (lines 151-155). -/
def terminate_terminated (P : Platform) (thread : CRYPTO_THREAD) (events : List Event) :
    TerminateResult :=
  let thread := CRYPTO_THREAD_UNSET_ERROR P thread (CRYPTO_THREAD_TERMINATED P)
  let thread := CRYPTO_THREAD_SET_STATE thread (CRYPTO_THREAD_TERMINATED P)
  { ret := 1, thread := some thread, events := events }

/-- The function `ossl_crypto_thread_native_terminate`. `cancel_rc` is the return value of
`pthread_cancel`, `native` the reply of `pthread_join`, should they be
called. -/
def ossl_crypto_thread_native_terminate (P : Platform) (thread : Option CRYPTO_THREAD)
    (cancel_rc : Int) (native : JoinReply) : TerminateResult :=
  let mask := CRYPTO_THREAD_FINISHED P
  let mask := mask ||| CRYPTO_THREAD_TERMINATED P
  let mask := mask ||| CRYPTO_THREAD_JOINED P
  match thread with
  | none => { ret := 0, thread := none, events := [] }
  | some thread =>
    if thread.handle = NULL ∨ CRYPTO_THREAD_GET_STATE thread mask ≠ 0 then
      terminate_terminated P thread []
    else
      let handle := thread.handle
      if cancel_rc ≠ 0 then
        let thread := CRYPTO_THREAD_SET_ERROR P thread (CRYPTO_THREAD_TERMINATED P)
        { ret := 0, thread := some thread, events := [Event.pthread_cancel handle] }
      else if native.rc ≠ 0 then
        { ret := 0, thread := some thread,
          events := [Event.pthread_cancel handle, Event.pthread_join handle] }
      else if native.thread_retval ≠ P.PTHREAD_CANCELED then
        { ret := 0, thread := some thread,
          events := [Event.pthread_cancel handle, Event.pthread_join handle] }
      else
        let thread := { thread with handle := NULL }
        terminate_terminated P thread
          [Event.pthread_cancel handle, Event.pthread_join handle, Event.OPENSSL_free handle]

/-! ## Auxiliary definitions -/

/-- The thread that the code at `pass:` of join leaves. -/
def join_pass_thread (P : Platform) (t : CRYPTO_THREAD) : CRYPTO_THREAD :=
  CRYPTO_THREAD_SET_STATE (CRYPTO_THREAD_UNSET_ERROR P t (CRYPTO_THREAD_JOINED P))
    (CRYPTO_THREAD_JOINED P)

/-- The thread that the code at `fail:` of join leaves. -/
def join_fail_thread (P : Platform) (t : CRYPTO_THREAD) : CRYPTO_THREAD :=
  CRYPTO_THREAD_SET_ERROR P t (CRYPTO_THREAD_JOINED P)

/-- The thread that the code at `terminated:` of terminate leaves. -/
def terminated_thread (P : Platform) (t : CRYPTO_THREAD) : CRYPTO_THREAD :=
  CRYPTO_THREAD_SET_STATE (CRYPTO_THREAD_UNSET_ERROR P t (CRYPTO_THREAD_TERMINATED P))
    (CRYPTO_THREAD_TERMINATED P)

/-- A layout used to evaluate the functions on concrete threads. -/
def examplePlatform : Platform :=
  { finished_bit := 1, joined_bit := 2, terminated_bit := 3, error_shift := 16,
    PTHREAD_CANCELED := 18446744073709551615 }

/-- Monotonicity of the state between the thread before a step (`t`) and after
it (`t_out`): each lifecycle flag that is set stays set, and a bit that is set
before and clear after is the error variant of JOINED or of TERMINATED. -/
def LifecyclePreserved (P : Platform) (t t_out : CRYPTO_THREAD) : Prop :=
  (CRYPTO_THREAD_GET_STATE t (CRYPTO_THREAD_FINISHED P) ≠ 0 →
    CRYPTO_THREAD_GET_STATE t_out (CRYPTO_THREAD_FINISHED P) ≠ 0) ∧
  (CRYPTO_THREAD_GET_STATE t (CRYPTO_THREAD_TERMINATED P) ≠ 0 →
    CRYPTO_THREAD_GET_STATE t_out (CRYPTO_THREAD_TERMINATED P) ≠ 0) ∧
  (CRYPTO_THREAD_GET_STATE t (CRYPTO_THREAD_JOINED P) ≠ 0 →
    CRYPTO_THREAD_GET_STATE t_out (CRYPTO_THREAD_JOINED P) ≠ 0) ∧
  ∀ k, t.state.testBit k = true → t_out.state.testBit k = false →
    k = P.joined_bit + P.error_shift ∨ k = P.terminated_bit + P.error_shift

/-- A spawned thread whose routine has not returned: native handle 7, no
lifecycle flag, no error bit. -/
def running_thread : CRYPTO_THREAD :=
  { state := 0, retval := 0, handle := 7, joinable := 1 }

/-- A finished thread on which a join failed before: FINISHED and the error
variant of JOINED are set, the native handle is 7, the stored result is 42. -/
def failed_join_thread : CRYPTO_THREAD :=
  { state := 1 <<< 1 ||| 1 <<< (2 + 16), retval := 42, handle := 7, joinable := 1 }

/-- A running thread on which a terminate failed before (cancel rejected):
only the error variant of TERMINATED is set, the native handle is 7. -/
def failed_terminate_thread : CRYPTO_THREAD :=
  { state := 1 <<< (3 + 16), retval := 0, handle := 7, joinable := 1 }

/-- A thread that has been joined and terminated: FINISHED, JOINED and
TERMINATED are set, the native handle is 7, the stored result is 42. -/
def joined_terminated_thread : CRYPTO_THREAD :=
  { state := 1 <<< 1 ||| 1 <<< 2 ||| 1 <<< 3, retval := 42, handle := 7, joinable := 1 }

/-! ## Bit-level facts about the state word -/

theorem and_eq_zero_iff_testBit (s m : Nat) :
    s &&& m = 0 ↔ ∀ k, s.testBit k = true → m.testBit k = false := by
  constructor
  · intro h k hk
    have hz : (s &&& m).testBit k = false := by rw [h]; exact Nat.zero_testBit k
    rw [Nat.testBit_and, hk] at hz
    simpa using hz
  · intro h
    apply Nat.eq_of_testBit_eq
    intro k
    rw [Nat.testBit_and, Nat.zero_testBit]
    cases hk : s.testBit k
    · rfl
    · simp [h k hk]

theorem flag_testBit (i k : Nat) : (1 <<< i).testBit k = decide (i = k) := by
  rw [Nat.one_shiftLeft, Nat.testBit_two_pow]

theorem error_flag_eq (i e : Nat) : (1 <<< i) <<< e = 1 <<< (i + e) := by
  rw [Nat.shiftLeft_add]

theorem get_state_flag (t : CRYPTO_THREAD) (i : Nat) :
    CRYPTO_THREAD_GET_STATE t (1 <<< i) = 0 ↔ t.state.testBit i = false := by
  unfold CRYPTO_THREAD_GET_STATE
  rw [and_eq_zero_iff_testBit]
  constructor
  · intro h
    cases hb : t.state.testBit i
    · rfl
    · have := h i hb
      simp [flag_testBit] at this
  · intro h k hk
    rw [flag_testBit]
    by_cases hik : i = k
    · subst hik; rw [h] at hk; cases hk
    · simp [hik]

theorem get_state_mask2 (t : CRYPTO_THREAD) (a b : Nat) :
    CRYPTO_THREAD_GET_STATE t (1 <<< a ||| 1 <<< b) = 0 ↔
      t.state.testBit a = false ∧ t.state.testBit b = false := by
  rw [← get_state_flag, ← get_state_flag]
  unfold CRYPTO_THREAD_GET_STATE
  simp only [and_eq_zero_iff_testBit, Nat.testBit_or, Bool.or_eq_false_iff]
  constructor
  · intro h
    exact ⟨fun k hk => (h k hk).1, fun k hk => (h k hk).2⟩
  · intro h k hk
    exact ⟨h.1 k hk, h.2 k hk⟩

theorem get_state_mask3 (t : CRYPTO_THREAD) (a b c : Nat) :
    CRYPTO_THREAD_GET_STATE t (1 <<< a ||| 1 <<< b ||| 1 <<< c) = 0 ↔
      t.state.testBit a = false ∧ t.state.testBit b = false ∧ t.state.testBit c = false := by
  rw [← get_state_flag, ← get_state_flag, ← get_state_flag]
  unfold CRYPTO_THREAD_GET_STATE
  simp only [and_eq_zero_iff_testBit, Nat.testBit_or, Bool.or_eq_false_iff]
  constructor
  · intro h
    exact ⟨fun k hk => (h k hk).1.1, fun k hk => (h k hk).1.2, fun k hk => (h k hk).2⟩
  · intro h k hk
    exact ⟨⟨h.1 k hk, h.2.1 k hk⟩, h.2.2 k hk⟩

theorem get_error_flag (P : Platform) (t : CRYPTO_THREAD) (i : Nat) :
    CRYPTO_THREAD_GET_ERROR P t (1 <<< i) = 0 ↔
      t.state.testBit (i + P.error_shift) = false := by
  have h := get_state_flag { t with state := t.state >>> P.error_shift } i
  unfold CRYPTO_THREAD_GET_STATE at h
  unfold CRYPTO_THREAD_GET_ERROR
  rw [h]
  simp only [Nat.testBit_shiftRight, Nat.add_comm]

/-- Bit `k` of the state after `CRYPTO_THREAD_SET_STATE` of the flag at bit `i`. -/
theorem set_state_testBit (t : CRYPTO_THREAD) (i k : Nat) :
    (CRYPTO_THREAD_SET_STATE t (1 <<< i)).state.testBit k =
      (t.state.testBit k || decide (i = k)) := by
  simp only [CRYPTO_THREAD_SET_STATE, Nat.testBit_or, flag_testBit]

/-- Bit `k` of the state after `CRYPTO_THREAD_UNSET_STATE` of the flag at bit `i`. -/
theorem unset_state_testBit (t : CRYPTO_THREAD) (i k : Nat) :
    (CRYPTO_THREAD_UNSET_STATE t (1 <<< i)).state.testBit k =
      (t.state.testBit k && !decide (i = k)) := by
  simp only [CRYPTO_THREAD_UNSET_STATE, Nat.testBit_xor, Nat.testBit_and, flag_testBit]
  cases t.state.testBit k <;> cases decide (i = k) <;> rfl

theorem set_error_testBit (P : Platform) (t : CRYPTO_THREAD) (i k : Nat) :
    (CRYPTO_THREAD_SET_ERROR P t (1 <<< i)).state.testBit k =
      (t.state.testBit k || decide (i + P.error_shift = k)) := by
  unfold CRYPTO_THREAD_SET_ERROR
  rw [error_flag_eq, set_state_testBit]

theorem unset_error_testBit (P : Platform) (t : CRYPTO_THREAD) (i k : Nat) :
    (CRYPTO_THREAD_UNSET_ERROR P t (1 <<< i)).state.testBit k =
      (t.state.testBit k && !decide (i + P.error_shift = k)) := by
  unfold CRYPTO_THREAD_UNSET_ERROR
  rw [error_flag_eq, unset_state_testBit]

/-! ## Facts about the functions -/

/-- With FINISHED set the loop of join is left without waiting. -/
theorem join_wait_finished (P : Platform) (ws : List (Option CRYPTO_THREAD_RETVAL))
    (t : CRYPTO_THREAD) (ev : List Event)
    (h : t.state.testBit P.finished_bit = true) :
    join_wait P ws t ev = some (t, ev) := by
  have h0 : ¬ CRYPTO_THREAD_GET_STATE t (CRYPTO_THREAD_FINISHED P) = 0 := by
    rw [CRYPTO_THREAD_FINISHED, get_state_flag, h]; simp
  cases ws <;> simp [join_wait, h0]

/-- Join on a thread with TERMINATED or JOINED set goes straight to `pass:`. -/
theorem join_short_circuit (P : Platform) (t : CRYPTO_THREAD)
    (slot : Option CRYPTO_THREAD_RETVAL) (native : JoinReply)
    (ws : List (Option CRYPTO_THREAD_RETVAL))
    (h : t.state.testBit P.terminated_bit = true ∨ t.state.testBit P.joined_bit = true) :
    ossl_crypto_thread_native_join P (some t) slot native ws = some (join_pass P t slot []) := by
  have hmask : ¬ CRYPTO_THREAD_GET_STATE t
      (CRYPTO_THREAD_TERMINATED P ||| CRYPTO_THREAD_JOINED P) = 0 := by
    rw [CRYPTO_THREAD_TERMINATED, CRYPTO_THREAD_JOINED, get_state_mask2]
    rcases h with h | h <;> simp [h]
  simp [ossl_crypto_thread_native_join, hmask]

/-- Join on a thread with FINISHED set and neither TERMINATED nor JOINED set:
no wait, then the three failure tests in program order. -/
theorem join_finished (P : Platform) (t : CRYPTO_THREAD)
    (slot : Option CRYPTO_THREAD_RETVAL) (native : JoinReply)
    (ws : List (Option CRYPTO_THREAD_RETVAL))
    (hF : t.state.testBit P.finished_bit = true)
    (hT : t.state.testBit P.terminated_bit = false)
    (hJ : t.state.testBit P.joined_bit = false) :
    ossl_crypto_thread_native_join P (some t) slot native ws =
      some (if t.handle = NULL then join_fail P t slot []
        else if native.rc ≠ 0 then join_fail P t slot [Event.pthread_join t.handle]
        else if native.thread_retval ≠ NULL then join_fail P t slot [Event.pthread_join t.handle]
        else join_pass P t slot [Event.pthread_join t.handle]) := by
  have hmask : CRYPTO_THREAD_GET_STATE t
      (CRYPTO_THREAD_TERMINATED P ||| CRYPTO_THREAD_JOINED P) = 0 := by
    rw [CRYPTO_THREAD_TERMINATED, CRYPTO_THREAD_JOINED, get_state_mask2]
    exact ⟨hT, hJ⟩
  simp only [ossl_crypto_thread_native_join, hmask, join_wait_finished P ws t [] hF]
  by_cases h1 : t.handle = NULL
  · simp [h1]
  · by_cases h2 : native.rc = 0
    · by_cases h3 : native.thread_retval = NULL <;> simp [h1, h2, h3]
    · simp [h1, h2]

theorem join_pass_thread_testBit (P : Platform) (t : CRYPTO_THREAD) (k : Nat) :
    (join_pass_thread P t).state.testBit k =
      ((t.state.testBit k && !decide (P.joined_bit + P.error_shift = k)) ||
        decide (P.joined_bit = k)) := by
  rw [join_pass_thread, CRYPTO_THREAD_JOINED, set_state_testBit, unset_error_testBit]

theorem join_fail_thread_testBit (P : Platform) (t : CRYPTO_THREAD) (k : Nat) :
    (join_fail_thread P t).state.testBit k =
      (t.state.testBit k || decide (P.joined_bit + P.error_shift = k)) := by
  rw [join_fail_thread, CRYPTO_THREAD_JOINED, set_error_testBit]

theorem terminated_thread_testBit (P : Platform) (t : CRYPTO_THREAD) (k : Nat) :
    (terminated_thread P t).state.testBit k =
      ((t.state.testBit k && !decide (P.terminated_bit + P.error_shift = k)) ||
        decide (P.terminated_bit = k)) := by
  rw [terminated_thread, CRYPTO_THREAD_TERMINATED, set_state_testBit, unset_error_testBit]

theorem thunk_testBit (P : Platform) (t : CRYPTO_THREAD) (r : CRYPTO_THREAD_RETVAL) (k : Nat) :
    (thread_start_thunk P t r).1.state.testBit k =
      (t.state.testBit k || decide (P.finished_bit = k)) := by
  simp only [thread_start_thunk, CRYPTO_THREAD_FINISHED]
  exact set_state_testBit t P.finished_bit k

theorem join_pass_eq (P : Platform) (t : CRYPTO_THREAD) (slot : Option CRYPTO_THREAD_RETVAL)
    (ev : List Event) :
    join_pass P t slot ev =
      { ret := 1, thread := some (join_pass_thread P t),
        retval := slot.map (fun _ => t.retval), events := ev } := by
  cases slot <;> rfl

theorem join_fail_eq (P : Platform) (t : CRYPTO_THREAD) (slot : Option CRYPTO_THREAD_RETVAL)
    (ev : List Event) :
    join_fail P t slot ev =
      { ret := 0, thread := some (join_fail_thread P t), retval := slot, events := ev } := rfl

theorem terminate_terminated_eq (P : Platform) (t : CRYPTO_THREAD) (ev : List Event) :
    terminate_terminated P t ev =
      { ret := 1, thread := some (terminated_thread P t), events := ev } := rfl

/-- Terminate on a thread without native handle or with a lifecycle flag set
goes straight to `terminated:`. -/
theorem terminate_short_circuit (P : Platform) (t : CRYPTO_THREAD) (cancel_rc : Int)
    (native : JoinReply)
    (h : t.handle = NULL ∨ t.state.testBit P.finished_bit = true ∨
      t.state.testBit P.terminated_bit = true ∨ t.state.testBit P.joined_bit = true) :
    ossl_crypto_thread_native_terminate P (some t) cancel_rc native =
      terminate_terminated P t [] := by
  have hc : t.handle = NULL ∨ ¬ CRYPTO_THREAD_GET_STATE t
      (CRYPTO_THREAD_FINISHED P ||| CRYPTO_THREAD_TERMINATED P ||| CRYPTO_THREAD_JOINED P) = 0 := by
    rw [CRYPTO_THREAD_FINISHED, CRYPTO_THREAD_TERMINATED, CRYPTO_THREAD_JOINED, get_state_mask3]
    rcases h with h | h | h | h
    · exact Or.inl h
    · right; simp [h]
    · right; simp [h]
    · right; simp [h]
  simp only [ossl_crypto_thread_native_terminate]
  rw [if_pos hc]

/-- Terminate on a running thread: cancel, join, and the test of the join
result, in program order. -/
theorem terminate_running (P : Platform) (t : CRYPTO_THREAD) (cancel_rc : Int)
    (native : JoinReply)
    (hh : t.handle ≠ NULL)
    (hF : t.state.testBit P.finished_bit = false)
    (hT : t.state.testBit P.terminated_bit = false)
    (hJ : t.state.testBit P.joined_bit = false) :
    ossl_crypto_thread_native_terminate P (some t) cancel_rc native =
      if cancel_rc ≠ 0 then
        { ret := 0,
          thread := some (CRYPTO_THREAD_SET_ERROR P t (CRYPTO_THREAD_TERMINATED P)),
          events := [Event.pthread_cancel t.handle] }
      else if native.rc ≠ 0 ∨ native.thread_retval ≠ P.PTHREAD_CANCELED then
        { ret := 0, thread := some t,
          events := [Event.pthread_cancel t.handle, Event.pthread_join t.handle] }
      else
        { ret := 1, thread := some (terminated_thread P { t with handle := NULL }),
          events := [Event.pthread_cancel t.handle, Event.pthread_join t.handle,
            Event.OPENSSL_free t.handle] } := by
  have hc : ¬ (t.handle = NULL ∨ ¬ CRYPTO_THREAD_GET_STATE t
      (CRYPTO_THREAD_FINISHED P ||| CRYPTO_THREAD_TERMINATED P ||| CRYPTO_THREAD_JOINED P) = 0) := by
    rw [CRYPTO_THREAD_FINISHED, CRYPTO_THREAD_TERMINATED, CRYPTO_THREAD_JOINED, get_state_mask3]
    simp [hh, hF, hT, hJ]
  simp only [ossl_crypto_thread_native_terminate]
  rw [if_neg hc]
  by_cases h1 : cancel_rc = 0
  · by_cases h2 : native.rc = 0
    · by_cases h3 : native.thread_retval = P.PTHREAD_CANCELED
      · simp [h1, h2, h3, terminate_terminated_eq]
      · simp [h1, h2, h3]
    · simp [h1, h2]
  · simp [h1]

/-- C1: for every thread with a non-null native handle and neither TERMINATED
nor JOINED set, and every routine result `r`: after the completion step of the
start thunk, join with a non-null output slot and a native join answering 0
with a NULL thread result returns 1, the slot holds `r`, and FINISHED and
JOINED are set with the JOINED error bit clear. -/
theorem join_after_thunk_returns_result (P : Platform) (hP : P.WellFormed)
    (t : CRYPTO_THREAD) (r v0 : CRYPTO_THREAD_RETVAL)
    (ws : List (Option CRYPTO_THREAD_RETVAL))
    (hh : t.handle ≠ NULL)
    (hT : CRYPTO_THREAD_GET_STATE t (CRYPTO_THREAD_TERMINATED P) = 0)
    (hJ : CRYPTO_THREAD_GET_STATE t (CRYPTO_THREAD_JOINED P) = 0) :
    ∃ res t_out,
      ossl_crypto_thread_native_join P (some (thread_start_thunk P t r).1) (some v0)
        { rc := 0, thread_retval := NULL } ws = some res ∧
      res.thread = some t_out ∧ res.ret = 1 ∧ res.retval = some r ∧
      CRYPTO_THREAD_GET_STATE t_out (CRYPTO_THREAD_FINISHED P) ≠ 0 ∧
      CRYPTO_THREAD_GET_STATE t_out (CRYPTO_THREAD_JOINED P) ≠ 0 ∧
      CRYPTO_THREAD_GET_ERROR P t_out (CRYPTO_THREAD_JOINED P) = 0 := by
  obtain ⟨hfj, hft, hjt, -, -, -, hjef, hjej, -, -, -, -⟩ := hP
  simp only [CRYPTO_THREAD_TERMINATED, CRYPTO_THREAD_JOINED, CRYPTO_THREAD_FINISHED,
    get_state_flag] at hT hJ
  have hh2 : ¬ (thread_start_thunk P t r).1.handle = NULL := hh
  refine ⟨join_pass P (thread_start_thunk P t r).1 (some v0)
    [Event.pthread_join (thread_start_thunk P t r).1.handle],
    join_pass_thread P (thread_start_thunk P t r).1, ?_, rfl, rfl, rfl, ?_⟩
  · rw [join_finished P _ _ _ _ (by simp [thunk_testBit]) (by simp [thunk_testBit, hT, hft])
      (by simp [thunk_testBit, hJ, hfj])]
    simp only [if_neg hh2, ne_eq, not_true_eq_false, if_false]
  · simp only [CRYPTO_THREAD_TERMINATED, CRYPTO_THREAD_JOINED, CRYPTO_THREAD_FINISHED, ne_eq,
      get_state_flag, get_error_flag, join_pass_thread_testBit, thunk_testBit]
    have he : ¬ P.error_shift = 0 := by omega
    simp [hjef, he]

/-- C2: for every non-null thread on which join does not block (FINISHED,
TERMINATED or JOINED set) and every native-join reply given to both calls: two
consecutive joins return the same value, and when they succeed each writes the
retval stored in the thread to its (non-null) output slot. -/
theorem join_twice_same_outcome (P : Platform) (hP : P.WellFormed)
    (t : CRYPTO_THREAD) (slot1 slot2 : Option CRYPTO_THREAD_RETVAL) (native : JoinReply)
    (ws1 ws2 : List (Option CRYPTO_THREAD_RETVAL))
    (h : CRYPTO_THREAD_GET_STATE t (CRYPTO_THREAD_FINISHED P) ≠ 0 ∨
      CRYPTO_THREAD_GET_STATE t (CRYPTO_THREAD_TERMINATED P) ≠ 0 ∨
      CRYPTO_THREAD_GET_STATE t (CRYPTO_THREAD_JOINED P) ≠ 0) :
    ∃ r1 t1 r2,
      ossl_crypto_thread_native_join P (some t) slot1 native ws1 = some r1 ∧
      r1.thread = some t1 ∧
      ossl_crypto_thread_native_join P (some t1) slot2 native ws2 = some r2 ∧
      r2.ret = r1.ret ∧
      (r1.ret = 1 → r1.retval = slot1.map (fun _ => t.retval) ∧
        r2.retval = slot2.map (fun _ => t.retval)) := by
  obtain ⟨hfj, hft, hjt, -, -, -, hjef, hjej, hjet, -, -, -⟩ := hP
  have he : ¬ P.error_shift = 0 := by omega
  simp only [CRYPTO_THREAD_TERMINATED, CRYPTO_THREAD_JOINED, CRYPTO_THREAD_FINISHED, ne_eq,
    get_state_flag, Bool.not_eq_false] at h
  have hpass2 : ∀ ev, ∃ r2,
      ossl_crypto_thread_native_join P (some (join_pass_thread P t)) slot2 native ws2 = some r2 ∧
      r2.ret = 1 ∧ r2.retval = slot2.map (fun _ => t.retval) ∧
      (join_pass P t slot1 ev).thread = some (join_pass_thread P t) ∧
      (join_pass P t slot1 ev).ret = 1 ∧
      (join_pass P t slot1 ev).retval = slot1.map (fun _ => t.retval) := by
    intro ev
    refine ⟨join_pass P (join_pass_thread P t) slot2 [], ?_, rfl, ?_, ?_⟩
    · exact join_short_circuit P _ slot2 native ws2
        (Or.inr (by simp [join_pass_thread_testBit]))
    · rw [join_pass_eq]; rfl
    · rw [join_pass_eq]; exact ⟨rfl, rfl, rfl⟩
  by_cases hTJ : t.state.testBit P.terminated_bit = true ∨ t.state.testBit P.joined_bit = true
  · obtain ⟨r2, h2, hr2, hv2, ht1, hr1, hv1⟩ := hpass2 []
    exact ⟨join_pass P t slot1 [], join_pass_thread P t, r2,
      join_short_circuit P t slot1 native ws1 hTJ, ht1, h2, by rw [hr2, hr1],
      fun _ => ⟨hv1, hv2⟩⟩
  · simp only [not_or, Bool.not_eq_true] at hTJ
    obtain ⟨hT, hJ⟩ := hTJ
    have hF : t.state.testBit P.finished_bit = true := by
      rcases h with h | h | h
      · exact h
      · rw [hT] at h; cases h
      · rw [hJ] at h; cases h
    have hfailF : (join_fail_thread P t).state.testBit P.finished_bit = true := by
      simp [join_fail_thread_testBit, hF]
    have hfailT : (join_fail_thread P t).state.testBit P.terminated_bit = false := by
      simp [join_fail_thread_testBit, hT, hjet]
    have hfailJ : (join_fail_thread P t).state.testBit P.joined_bit = false := by
      simp [join_fail_thread_testBit, hJ, he]
    have hfailh : (join_fail_thread P t).handle = t.handle := rfl
    have e1 := join_finished P t slot1 native ws1 hF hT hJ
    have e2 := join_finished P (join_fail_thread P t) slot2 native ws2 hfailF hfailT hfailJ
    rw [hfailh] at e2
    by_cases h1 : t.handle = NULL
    · rw [if_pos h1] at e1 e2
      exact ⟨_, join_fail_thread P t, _, e1, rfl, e2, rfl, fun hc => by cases hc⟩
    · rw [if_neg h1] at e1 e2
      by_cases h2 : native.rc ≠ 0
      · rw [if_pos h2] at e1 e2
        exact ⟨_, join_fail_thread P t, _, e1, rfl, e2, rfl, fun hc => by cases hc⟩
      · rw [if_neg h2] at e1 e2
        by_cases h3 : native.thread_retval ≠ NULL
        · rw [if_pos h3] at e1 e2
          exact ⟨_, join_fail_thread P t, _, e1, rfl, e2, rfl, fun hc => by cases hc⟩
        · rw [if_neg h3] at e1
          obtain ⟨r2, hj2, hr2, hv2, ht1, hr1, hv1⟩ := hpass2 [Event.pthread_join t.handle]
          exact ⟨_, join_pass_thread P t, r2, e1, ht1, hj2, by rw [hr2, hr1],
            fun _ => ⟨hv1, hv2⟩⟩

/-- C3: for every non-null thread whose native handle is null or whose state
has FINISHED, TERMINATED or JOINED set: terminate returns 1, sets TERMINATED,
clears the TERMINATED error bit, issues no native call, and leaves retval, the
native handle and every other bit of the state unchanged. -/
theorem terminate_idempotent_frame (P : Platform) (hP : P.WellFormed)
    (t : CRYPTO_THREAD) (cancel_rc : Int) (native : JoinReply)
    (h : t.handle = NULL ∨
      CRYPTO_THREAD_GET_STATE t (CRYPTO_THREAD_FINISHED P) ≠ 0 ∨
      CRYPTO_THREAD_GET_STATE t (CRYPTO_THREAD_TERMINATED P) ≠ 0 ∨
      CRYPTO_THREAD_GET_STATE t (CRYPTO_THREAD_JOINED P) ≠ 0) :
    ∃ t_out,
      ossl_crypto_thread_native_terminate P (some t) cancel_rc native =
        { ret := 1, thread := some t_out, events := [] } ∧
      CRYPTO_THREAD_GET_STATE t_out (CRYPTO_THREAD_TERMINATED P) ≠ 0 ∧
      CRYPTO_THREAD_GET_ERROR P t_out (CRYPTO_THREAD_TERMINATED P) = 0 ∧
      t_out.retval = t.retval ∧ t_out.handle = t.handle ∧ t_out.joinable = t.joinable ∧
      ∀ k, k ≠ P.terminated_bit → k ≠ P.terminated_bit + P.error_shift →
        t_out.state.testBit k = t.state.testBit k := by
  obtain ⟨-, -, -, -, -, -, -, -, -, -, -, htet⟩ := hP
  have he : ¬ P.error_shift = 0 := by omega
  simp only [CRYPTO_THREAD_TERMINATED, CRYPTO_THREAD_JOINED, CRYPTO_THREAD_FINISHED, ne_eq,
    get_state_flag, get_error_flag, Bool.not_eq_false] at h ⊢
  refine ⟨terminated_thread P t, ?_, ?_, ?_, rfl, rfl, rfl, ?_⟩
  · rw [terminate_short_circuit P t cancel_rc native h, terminate_terminated_eq]
  · simp [terminated_thread_testBit]
  · simp [terminated_thread_testBit, he]
  · intro k hk1 hk2
    have hk1 : ¬ P.terminated_bit = k := fun e => hk1 e.symm
    have hk2 : ¬ P.terminated_bit + P.error_shift = k := fun e => hk2 e.symm
    simp [terminated_thread_testBit, hk1, hk2]

/-- C4: for every non-null thread with FINISHED set and neither TERMINATED nor
JOINED set: join returns 0 exactly when the native handle is null, or the
native join returns non-zero, or it returns a non-NULL thread result; and
whenever join returns 0 the JOINED error bit is set, the JOINED flag is not
set, and the output slot is as it was. -/
theorem join_failure_iff (P : Platform) (hP : P.WellFormed)
    (t : CRYPTO_THREAD) (slot : Option CRYPTO_THREAD_RETVAL) (native : JoinReply)
    (ws : List (Option CRYPTO_THREAD_RETVAL))
    (hF : CRYPTO_THREAD_GET_STATE t (CRYPTO_THREAD_FINISHED P) ≠ 0)
    (hT : CRYPTO_THREAD_GET_STATE t (CRYPTO_THREAD_TERMINATED P) = 0)
    (hJ : CRYPTO_THREAD_GET_STATE t (CRYPTO_THREAD_JOINED P) = 0) :
    ∃ res t_out,
      ossl_crypto_thread_native_join P (some t) slot native ws = some res ∧
      res.thread = some t_out ∧
      (res.ret = 0 ↔ (t.handle = NULL ∨ native.rc ≠ 0 ∨ native.thread_retval ≠ NULL)) ∧
      (res.ret = 0 →
        CRYPTO_THREAD_GET_ERROR P t_out (CRYPTO_THREAD_JOINED P) ≠ 0 ∧
        CRYPTO_THREAD_GET_STATE t_out (CRYPTO_THREAD_JOINED P) = 0 ∧
        res.retval = slot) := by
  obtain ⟨-, -, -, -, -, -, -, hjej, -, -, -, -⟩ := hP
  have he : ¬ P.error_shift = 0 := by omega
  simp only [CRYPTO_THREAD_TERMINATED, CRYPTO_THREAD_JOINED, CRYPTO_THREAD_FINISHED, ne_eq,
    get_state_flag, get_error_flag, Bool.not_eq_false] at hF hT hJ ⊢
  have hfail : ∀ ev, (join_fail P t slot ev).thread = some (join_fail_thread P t) ∧
      (join_fail P t slot ev).ret = 0 ∧
      ((join_fail_thread P t).state.testBit (P.joined_bit + P.error_shift) = true ∧
        (join_fail_thread P t).state.testBit P.joined_bit = false ∧
        (join_fail P t slot ev).retval = slot) := by
    intro ev
    refine ⟨rfl, rfl, ?_, ?_, rfl⟩
    · simp [join_fail_thread_testBit]
    · simp [join_fail_thread_testBit, hJ, he]
  have e1 := join_finished P t slot native ws hF hT hJ
  by_cases h1 : t.handle = NULL
  · rw [if_pos h1] at e1
    obtain ⟨ht, hr, hrest⟩ := hfail []
    exact ⟨_, _, e1, ht, by simp [hr, h1], fun _ => hrest⟩
  · rw [if_neg h1] at e1
    by_cases h2 : native.rc ≠ 0
    · rw [if_pos h2] at e1
      obtain ⟨ht, hr, hrest⟩ := hfail [Event.pthread_join t.handle]
      exact ⟨_, _, e1, ht, by simp [hr, h2], fun _ => hrest⟩
    · rw [if_neg h2] at e1
      by_cases h3 : native.thread_retval ≠ NULL
      · rw [if_pos h3] at e1
        obtain ⟨ht, hr, hrest⟩ := hfail [Event.pthread_join t.handle]
        exact ⟨_, _, e1, ht, by simp [hr, h3], fun _ => hrest⟩
      · rw [if_neg h3] at e1
        refine ⟨_, join_pass_thread P t, e1, rfl, ?_, ?_⟩
        · have hr : (join_pass P t slot [Event.pthread_join t.handle]).ret = 1 := rfl
          rw [hr]
          simp only [ne_eq, not_not] at h2 h3
          simp [h1, h2, h3]
        · intro hc
          have hr : (join_pass P t slot [Event.pthread_join t.handle]).ret = 1 := rfl
          rw [hr] at hc
          cases hc

/-- C5: on a running thread (native handle 7, no flag, no error bit) whose
native cancel is accepted, terminate returns 0 with the TERMINATED error bit
clear and the thread as it was, both when the native join then reports that
the thread returned normally (result NULL) and when the native join itself
fails (return value 3). -/
theorem terminate_join_failure_leaves_error_clear :
    running_thread.handle ≠ NULL ∧
    CRYPTO_THREAD_GET_STATE running_thread (CRYPTO_THREAD_FINISHED examplePlatform) = 0 ∧
    CRYPTO_THREAD_GET_STATE running_thread (CRYPTO_THREAD_TERMINATED examplePlatform) = 0 ∧
    CRYPTO_THREAD_GET_STATE running_thread (CRYPTO_THREAD_JOINED examplePlatform) = 0 ∧
    ossl_crypto_thread_native_terminate examplePlatform (some running_thread) 0
        { rc := 0, thread_retval := NULL } =
      { ret := 0, thread := some running_thread,
        events := [Event.pthread_cancel 7, Event.pthread_join 7] } ∧
    ossl_crypto_thread_native_terminate examplePlatform (some running_thread) 0
        { rc := 3, thread_retval := NULL } =
      { ret := 0, thread := some running_thread,
        events := [Event.pthread_cancel 7, Event.pthread_join 7] } ∧
    CRYPTO_THREAD_GET_ERROR examplePlatform running_thread
      (CRYPTO_THREAD_TERMINATED examplePlatform) = 0 := by
  decide

/-- C6, as stated, fails. On a finished thread with the JOINED error variant
recorded (and the JOINED flag clear), a repeated join calls the native join
again and, when that answers 0 with a NULL result, returns 1 and replaces the
error variant by the success variant. On a running thread with the TERMINATED
error variant recorded, a repeated terminate cancels and joins again and
returns 1 when the cancellation is confirmed. -/
theorem repeated_call_after_error_retries :
    (CRYPTO_THREAD_GET_ERROR examplePlatform failed_join_thread
        (CRYPTO_THREAD_JOINED examplePlatform) ≠ 0 ∧
      CRYPTO_THREAD_GET_STATE failed_join_thread (CRYPTO_THREAD_JOINED examplePlatform) = 0 ∧
      ossl_crypto_thread_native_join examplePlatform (some failed_join_thread) (some 0)
          { rc := 0, thread_retval := NULL } [] =
        some { ret := 1,
               thread := some { failed_join_thread with state := 1 <<< 1 ||| 1 <<< 2 },
               retval := some 42, events := [Event.pthread_join 7] }) ∧
    (CRYPTO_THREAD_GET_ERROR examplePlatform failed_terminate_thread
        (CRYPTO_THREAD_TERMINATED examplePlatform) ≠ 0 ∧
      CRYPTO_THREAD_GET_STATE failed_terminate_thread
        (CRYPTO_THREAD_TERMINATED examplePlatform) = 0 ∧
      ossl_crypto_thread_native_terminate examplePlatform (some failed_terminate_thread) 0
          { rc := 0, thread_retval := examplePlatform.PTHREAD_CANCELED } =
        { ret := 1,
          thread := some { failed_terminate_thread with state := 1 <<< 3, handle := NULL },
          events := [Event.pthread_cancel 7, Event.pthread_join 7, Event.OPENSSL_free 7] }) := by
  decide

/-- C6, amended. For every non-null thread:
(1) if the JOINED flag is set, a repeated join issues no wait and no native
call and returns 1, writing the stored retval to a non-null slot, and JOINED
stays set with its error bit clear;
(2) if the TERMINATED flag is set, a repeated terminate issues no native call
and returns 1, and TERMINATED stays set with its error bit clear;
(3) if FINISHED is set, TERMINATED and JOINED are clear and the native handle
is non-null, then, whatever the JOINED error bit, join issues exactly one
native join and returns 1 exactly when that answers 0 with a NULL result;
(4) if FINISHED, TERMINATED and JOINED are clear and the native handle is
non-null, then, whatever the TERMINATED error bit, terminate issues the native
cancel first and returns 1 exactly when the cancel returns 0 and the native
join returns 0 with result `PTHREAD_CANCELED`. -/
theorem repeated_call_after_success (P : Platform) (hP : P.WellFormed) (t : CRYPTO_THREAD) :
    (CRYPTO_THREAD_GET_STATE t (CRYPTO_THREAD_JOINED P) ≠ 0 →
      ∀ (slot : Option CRYPTO_THREAD_RETVAL) (native : JoinReply)
        (ws : List (Option CRYPTO_THREAD_RETVAL)),
      ∃ t_out,
        ossl_crypto_thread_native_join P (some t) slot native ws =
          some { ret := 1, thread := some t_out, retval := slot.map (fun _ => t.retval),
                 events := [] } ∧
        CRYPTO_THREAD_GET_STATE t_out (CRYPTO_THREAD_JOINED P) ≠ 0 ∧
        CRYPTO_THREAD_GET_ERROR P t_out (CRYPTO_THREAD_JOINED P) = 0) ∧
    (CRYPTO_THREAD_GET_STATE t (CRYPTO_THREAD_TERMINATED P) ≠ 0 →
      ∀ (cancel_rc : Int) (native : JoinReply),
      ∃ t_out,
        ossl_crypto_thread_native_terminate P (some t) cancel_rc native =
          { ret := 1, thread := some t_out, events := [] } ∧
        CRYPTO_THREAD_GET_STATE t_out (CRYPTO_THREAD_TERMINATED P) ≠ 0 ∧
        CRYPTO_THREAD_GET_ERROR P t_out (CRYPTO_THREAD_TERMINATED P) = 0) ∧
    (CRYPTO_THREAD_GET_STATE t (CRYPTO_THREAD_FINISHED P) ≠ 0 →
      CRYPTO_THREAD_GET_STATE t (CRYPTO_THREAD_TERMINATED P) = 0 →
      CRYPTO_THREAD_GET_STATE t (CRYPTO_THREAD_JOINED P) = 0 →
      t.handle ≠ NULL →
      ∀ (slot : Option CRYPTO_THREAD_RETVAL) (native : JoinReply)
        (ws : List (Option CRYPTO_THREAD_RETVAL)),
      ∃ res,
        ossl_crypto_thread_native_join P (some t) slot native ws = some res ∧
        res.events = [Event.pthread_join t.handle] ∧
        (res.ret = 1 ↔ (native.rc = 0 ∧ native.thread_retval = NULL))) ∧
    (CRYPTO_THREAD_GET_STATE t (CRYPTO_THREAD_FINISHED P) = 0 →
      CRYPTO_THREAD_GET_STATE t (CRYPTO_THREAD_TERMINATED P) = 0 →
      CRYPTO_THREAD_GET_STATE t (CRYPTO_THREAD_JOINED P) = 0 →
      t.handle ≠ NULL →
      ∀ (cancel_rc : Int) (native : JoinReply),
        (ossl_crypto_thread_native_terminate P (some t) cancel_rc native).events.head? =
          some (Event.pthread_cancel t.handle) ∧
        ((ossl_crypto_thread_native_terminate P (some t) cancel_rc native).ret = 1 ↔
          (cancel_rc = 0 ∧ native.rc = 0 ∧
            native.thread_retval = P.PTHREAD_CANCELED))) := by
  obtain ⟨-, -, -, -, -, -, -, hjej, -, -, -, htet⟩ := hP
  have he : ¬ P.error_shift = 0 := by omega
  simp only [CRYPTO_THREAD_TERMINATED, CRYPTO_THREAD_JOINED, CRYPTO_THREAD_FINISHED, ne_eq,
    get_state_flag, get_error_flag, Bool.not_eq_false]
  refine ⟨?_, ?_, ?_, ?_⟩
  · intro hJ slot native ws
    refine ⟨join_pass_thread P t, ?_, ?_, ?_⟩
    · rw [join_short_circuit P t slot native ws (Or.inr hJ), join_pass_eq]
    · simp [join_pass_thread_testBit]
    · simp [join_pass_thread_testBit, he]
  · intro hT cancel_rc native
    refine ⟨terminated_thread P t, ?_, ?_, ?_⟩
    · rw [terminate_short_circuit P t cancel_rc native (Or.inr (Or.inr (Or.inl hT))),
        terminate_terminated_eq]
    · simp [terminated_thread_testBit]
    · simp [terminated_thread_testBit, he]
  · intro hF hT hJ hh slot native ws
    have e1 := join_finished P t slot native ws hF hT hJ
    rw [if_neg hh] at e1
    by_cases h2 : native.rc = 0
    · by_cases h3 : native.thread_retval = NULL
      · rw [if_neg (by simp [h2]), if_neg (by simp [h3])] at e1
        exact ⟨_, e1, rfl, by simp [join_pass_eq, h2, h3]⟩
      · rw [if_neg (by simp [h2]), if_pos h3] at e1
        exact ⟨_, e1, rfl, by simp [join_fail_eq, h3]⟩
    · rw [if_pos h2] at e1
      exact ⟨_, e1, rfl, by simp [join_fail_eq, h2]⟩
  · intro hF hT hJ hh cancel_rc native
    rw [terminate_running P t cancel_rc native hh hF hT hJ]
    by_cases h1 : cancel_rc = 0
    · by_cases h2 : native.rc = 0
      · by_cases h3 : native.thread_retval = P.PTHREAD_CANCELED <;> simp [h1, h2, h3]
      · simp [h1, h2]
    · simp [h1]

/-- C7: for every non-null thread with a non-null native handle and none of
FINISHED, TERMINATED, JOINED set: terminate sets the native handle to null
exactly when the native cancel returns 0 and the native join returns 0 with
result `PTHREAD_CANCELED`; in that case it returns 1 with TERMINATED set and
the TERMINATED error bit clear, and in every other case it returns 0 and the
native handle is the one before the call. -/
theorem terminate_running_handle (P : Platform) (hP : P.WellFormed)
    (t : CRYPTO_THREAD) (cancel_rc : Int) (native : JoinReply)
    (hh : t.handle ≠ NULL)
    (hF : CRYPTO_THREAD_GET_STATE t (CRYPTO_THREAD_FINISHED P) = 0)
    (hT : CRYPTO_THREAD_GET_STATE t (CRYPTO_THREAD_TERMINATED P) = 0)
    (hJ : CRYPTO_THREAD_GET_STATE t (CRYPTO_THREAD_JOINED P) = 0) :
    ∃ t_out,
      (ossl_crypto_thread_native_terminate P (some t) cancel_rc native).thread = some t_out ∧
      (t_out.handle = NULL ↔
        (cancel_rc = 0 ∧ native.rc = 0 ∧ native.thread_retval = P.PTHREAD_CANCELED)) ∧
      ((cancel_rc = 0 ∧ native.rc = 0 ∧ native.thread_retval = P.PTHREAD_CANCELED) →
        (ossl_crypto_thread_native_terminate P (some t) cancel_rc native).ret = 1 ∧
        CRYPTO_THREAD_GET_STATE t_out (CRYPTO_THREAD_TERMINATED P) ≠ 0 ∧
        CRYPTO_THREAD_GET_ERROR P t_out (CRYPTO_THREAD_TERMINATED P) = 0) ∧
      (¬ (cancel_rc = 0 ∧ native.rc = 0 ∧ native.thread_retval = P.PTHREAD_CANCELED) →
        (ossl_crypto_thread_native_terminate P (some t) cancel_rc native).ret = 0 ∧
        t_out.handle = t.handle) := by
  obtain ⟨-, -, -, -, -, -, -, -, -, -, -, htet⟩ := hP
  have he : ¬ P.error_shift = 0 := by omega
  simp only [CRYPTO_THREAD_TERMINATED, CRYPTO_THREAD_JOINED, CRYPTO_THREAD_FINISHED, ne_eq,
    get_state_flag, get_error_flag, Bool.not_eq_false] at hF hT hJ ⊢
  rw [terminate_running P t cancel_rc native hh hF hT hJ]
  by_cases h1 : cancel_rc = 0
  · by_cases h2 : native.rc = 0
    · by_cases h3 : native.thread_retval = P.PTHREAD_CANCELED
      · refine ⟨terminated_thread P { t with handle := NULL }, ?_, ?_, ?_, ?_⟩
        · simp [h1, h2, h3]
        · simp [h1, h2, h3]; rfl
        · intro _
          simp [h1, h2, h3, terminated_thread_testBit, he]
        · intro hc; exact absurd ⟨h1, h2, h3⟩ hc
      · refine ⟨t, ?_, ?_, ?_, ?_⟩
        · simp [h1, h2, h3]
        · simp [h1, h2, h3]; exact hh
        · intro hc; exact absurd hc.2.2 h3
        · intro _; simp [h1, h2, h3]
    · refine ⟨t, ?_, ?_, ?_, ?_⟩
      · simp [h1, h2]
      · simp [h1, h2]; exact hh
      · intro hc; exact absurd hc.2.1 h2
      · intro _; simp [h1, h2]
  · refine ⟨CRYPTO_THREAD_SET_ERROR P t (CRYPTO_THREAD_TERMINATED P), ?_, ?_, ?_, ?_⟩
    · simp [h1]
    · simp [h1]; exact hh
    · intro hc; exact absurd hc.1 h1
    · intro _; simp [h1]; rfl

/-- The loop of join only adds bits to the state and leaves the stored handle. -/
theorem join_wait_mono (P : Platform) (ws : List (Option CRYPTO_THREAD_RETVAL)) :
    ∀ (t : CRYPTO_THREAD) (ev : List Event) (tw : CRYPTO_THREAD) (ev_out : List Event),
      join_wait P ws t ev = some (tw, ev_out) →
      ∀ k, t.state.testBit k = true → tw.state.testBit k = true := by
  induction ws with
  | nil =>
    intro t ev tw ev_out h k hk
    simp only [join_wait] at h
    split at h
    · cases h; exact hk
    · cases h
  | cons w ws ih =>
    intro t ev tw ev_out h k hk
    simp only [join_wait] at h
    split at h
    · cases h; exact hk
    · apply ih _ _ _ _ h k
      cases w with
      | none => exact hk
      | some r => simp [wake, thunk_testBit, hk]

/-- The loop of join is left once a wake-up carries the completion of the
start thunk. -/
theorem join_wait_returns (P : Platform) (ws : List (Option CRYPTO_THREAD_RETVAL)) :
    ∀ (t : CRYPTO_THREAD) (ev : List Event), (∃ r, some r ∈ ws) →
      ∃ tw ev_out, join_wait P ws t ev = some (tw, ev_out) := by
  induction ws with
  | nil =>
    intro t ev h
    obtain ⟨r, hr⟩ := h
    cases hr
  | cons w ws ih =>
    intro t ev h
    by_cases hF : t.state.testBit P.finished_bit = true
    · exact ⟨t, ev, join_wait_finished P _ t ev hF⟩
    · have h0 : CRYPTO_THREAD_GET_STATE t (CRYPTO_THREAD_FINISHED P) = 0 := by
        rw [CRYPTO_THREAD_FINISHED, get_state_flag]; simpa using hF
      simp only [join_wait, h0, ne_eq, not_true_eq_false, if_false]
      cases w with
      | none =>
        apply ih
        obtain ⟨r, hr⟩ := h
        simp only [List.mem_cons] at hr
        rcases hr with hr | hr
        · cases hr
        · exact ⟨r, hr⟩
      | some r =>
        exact ⟨_, _, join_wait_finished P ws _ _ (by simp [wake, thunk_testBit])⟩

/-- Join returns whenever TERMINATED, JOINED or FINISHED is set, or a wake-up
carries the completion of the start thunk. -/
theorem join_returns (P : Platform) (t : CRYPTO_THREAD) (slot : Option CRYPTO_THREAD_RETVAL)
    (native : JoinReply) (ws : List (Option CRYPTO_THREAD_RETVAL))
    (h : t.state.testBit P.terminated_bit = true ∨ t.state.testBit P.joined_bit = true ∨
      t.state.testBit P.finished_bit = true ∨ ∃ r, some r ∈ ws) :
    ∃ res, ossl_crypto_thread_native_join P (some t) slot native ws = some res := by
  by_cases hTJ : t.state.testBit P.terminated_bit = true ∨ t.state.testBit P.joined_bit = true
  · exact ⟨_, join_short_circuit P t slot native ws hTJ⟩
  · have hw : ∃ tw ev_out, join_wait P ws t [] = some (tw, ev_out) := by
      rcases h with h | h | h | h
      · exact absurd (Or.inl h) hTJ
      · exact absurd (Or.inr h) hTJ
      · exact ⟨t, [], join_wait_finished P ws t [] h⟩
      · exact join_wait_returns P ws t [] h
    obtain ⟨tw, ev_out, hw⟩ := hw
    simp only [not_or, Bool.not_eq_true] at hTJ
    have hmask : CRYPTO_THREAD_GET_STATE t
        (CRYPTO_THREAD_TERMINATED P ||| CRYPTO_THREAD_JOINED P) = 0 := by
      rw [CRYPTO_THREAD_TERMINATED, CRYPTO_THREAD_JOINED, get_state_mask2]
      exact hTJ
    simp only [ossl_crypto_thread_native_join, hmask, hw, ne_eq, not_true_eq_false, if_false]
    by_cases h1 : tw.handle = NULL
    · simp [h1]
    · by_cases h2 : native.rc = 0
      · by_cases h3 : native.thread_retval = NULL <;> simp [h1, h2, h3]
      · simp [h1, h2]

/-- Every return of join comes from `pass:` or `fail:`, on a thread that has at
least the bits of the thread join was called on. -/
theorem join_cases (P : Platform) (t : CRYPTO_THREAD) (slot : Option CRYPTO_THREAD_RETVAL)
    (native : JoinReply) (ws : List (Option CRYPTO_THREAD_RETVAL)) (r : JoinResult)
    (h : ossl_crypto_thread_native_join P (some t) slot native ws = some r) :
    ∃ tw ev, (∀ k, t.state.testBit k = true → tw.state.testBit k = true) ∧
      (r = join_pass P tw slot ev ∨ r = join_fail P tw slot ev) := by
  simp only [ossl_crypto_thread_native_join] at h
  split at h
  · cases h
    exact ⟨t, [], fun _ hk => hk, Or.inl rfl⟩
  · split at h
    · cases h
    · rename_i tw ev hw
      have hm := join_wait_mono P ws t [] tw ev hw
      split at h
      · cases h; exact ⟨tw, _, hm, Or.inr rfl⟩
      · split at h
        · cases h; exact ⟨tw, _, hm, Or.inr rfl⟩
        · split at h
          · cases h; exact ⟨tw, _, hm, Or.inr rfl⟩
          · cases h; exact ⟨tw, _, hm, Or.inl rfl⟩

/-- On a well-formed layout, a step that clears error bits only preserves the
lifecycle flags. -/
theorem lifecycle_of_bits (P : Platform) (hP : P.WellFormed) (t t_out : CRYPTO_THREAD)
    (h : ∀ k, t.state.testBit k = true → t_out.state.testBit k = false →
      k = P.joined_bit + P.error_shift ∨ k = P.terminated_bit + P.error_shift) :
    LifecyclePreserved P t t_out := by
  obtain ⟨hfj, hft, hjt, -, -, -, hjef, hjej, hjet, htef, htej, htet⟩ := hP
  unfold LifecyclePreserved
  simp only [CRYPTO_THREAD_TERMINATED, CRYPTO_THREAD_JOINED, CRYPTO_THREAD_FINISHED, ne_eq,
    get_state_flag, Bool.not_eq_false]
  refine ⟨?_, ?_, ?_, h⟩
  · intro hk
    cases hb : t_out.state.testBit P.finished_bit
    · rcases h _ hk hb with e | e
      · exact absurd e.symm hjef
      · exact absurd e.symm htef
    · rfl
  · intro hk
    cases hb : t_out.state.testBit P.terminated_bit
    · rcases h _ hk hb with e | e
      · exact absurd e.symm hjet
      · exact absurd e.symm htet
    · rfl
  · intro hk
    cases hb : t_out.state.testBit P.joined_bit
    · rcases h _ hk hb with e | e
      · exact absurd e.symm hjej
      · exact absurd e.symm htej
    · rfl

/-- Spawn does not touch the state word. -/
theorem spawn_state (t : CRYPTO_THREAD) (zalloc : Ptr) (create_rc : Int) :
    (ossl_crypto_thread_native_spawn t zalloc create_rc).thread.state = t.state := by
  unfold ossl_crypto_thread_native_spawn
  by_cases h1 : zalloc = NULL
  · simp [h1]
  · by_cases h2 : create_rc = 0 <;> simp [h1, h2]

/-- C8: for every running thread (non-null native handle, none of FINISHED,
TERMINATED, JOINED set) whose terminate returns 1: a following join issues no
condition-variable wait and no native join, returns 1, reports the stored
retval through a non-null output slot, and leaves TERMINATED set and the
native handle null. And after any join that returned 1, a following terminate
returns 1 without a native call and leaves the native handle as it is. -/
theorem terminate_then_join_and_back (P : Platform) (hP : P.WellFormed) :
    (∀ (t : CRYPTO_THREAD) (cancel_rc : Int) (native : JoinReply),
      t.handle ≠ NULL →
      CRYPTO_THREAD_GET_STATE t (CRYPTO_THREAD_FINISHED P) = 0 →
      CRYPTO_THREAD_GET_STATE t (CRYPTO_THREAD_TERMINATED P) = 0 →
      CRYPTO_THREAD_GET_STATE t (CRYPTO_THREAD_JOINED P) = 0 →
      (ossl_crypto_thread_native_terminate P (some t) cancel_rc native).ret = 1 →
      ∃ t1, (ossl_crypto_thread_native_terminate P (some t) cancel_rc native).thread = some t1 ∧
        ∀ (slot : Option CRYPTO_THREAD_RETVAL) (native2 : JoinReply)
          (ws : List (Option CRYPTO_THREAD_RETVAL)),
        ∃ t2, ossl_crypto_thread_native_join P (some t1) slot native2 ws =
            some { ret := 1, thread := some t2, retval := slot.map (fun _ => t.retval),
                   events := [] } ∧
          CRYPTO_THREAD_GET_STATE t2 (CRYPTO_THREAD_TERMINATED P) ≠ 0 ∧
          t2.handle = NULL) ∧
    (∀ (t : CRYPTO_THREAD) (slot : Option CRYPTO_THREAD_RETVAL) (native : JoinReply)
        (ws : List (Option CRYPTO_THREAD_RETVAL)) (r1 : JoinResult) (t1 : CRYPTO_THREAD),
      ossl_crypto_thread_native_join P (some t) slot native ws = some r1 →
      r1.ret = 1 → r1.thread = some t1 →
      ∀ (cancel_rc : Int) (native2 : JoinReply),
      ∃ t2, ossl_crypto_thread_native_terminate P (some t1) cancel_rc native2 =
          { ret := 1, thread := some t2, events := [] } ∧
        t2.handle = t1.handle) := by
  obtain ⟨-, -, -, -, -, -, -, -, hjet, -, -, -⟩ := hP
  simp only [CRYPTO_THREAD_TERMINATED, CRYPTO_THREAD_JOINED, CRYPTO_THREAD_FINISHED, ne_eq,
    get_state_flag, Bool.not_eq_false]
  constructor
  · intro t cancel_rc native hh hF hT hJ
    rw [terminate_running P t cancel_rc native hh hF hT hJ]
    by_cases h1 : cancel_rc ≠ 0
    · rw [if_pos h1]; intro hc; cases hc
    · rw [if_neg h1]
      by_cases h2 : native.rc ≠ 0 ∨ native.thread_retval ≠ P.PTHREAD_CANCELED
      · rw [if_pos h2]; intro hc; cases hc
      · rw [if_neg h2]
        intro _
        refine ⟨terminated_thread P { t with handle := NULL }, rfl, ?_⟩
        intro slot native2 ws
        refine ⟨join_pass_thread P (terminated_thread P { t with handle := NULL }), ?_, ?_, rfl⟩
        · rw [join_short_circuit P _ slot native2 ws
            (Or.inl (by simp [terminated_thread_testBit])), join_pass_eq]
          rfl
        · simp [join_pass_thread_testBit, terminated_thread_testBit, hjet]
  · intro t slot native ws r1 t1 hj hr ht1 cancel_rc native2
    obtain ⟨tw, ev, -, hcase⟩ := join_cases P t slot native ws r1 hj
    rcases hcase with e | e
    · rw [e, join_pass_eq] at ht1
      simp only [Option.some.injEq] at ht1
      refine ⟨terminated_thread P t1, ?_, rfl⟩
      rw [terminate_short_circuit P t1 cancel_rc native2
        (Or.inr (Or.inr (Or.inr (by rw [← ht1]; simp [join_pass_thread_testBit])))),
        terminate_terminated_eq]
    · rw [e] at hr; cases hr

/-- C9: for every thread, every pointer returned by the allocation and every
return value of the native thread creation: spawn returns 1 exactly when the
allocation is non-null and the creation returns 0, and 0 otherwise; when it
returns 1 the native handle is the allocated, non-null pointer and nothing is
freed; when it returns 0 the native handle is null and the allocated pointer
has been freed; state and retval are never changed. -/
theorem spawn_outcome (t : CRYPTO_THREAD) (zalloc : Ptr) (create_rc : Int) :
    ((ossl_crypto_thread_native_spawn t zalloc create_rc).ret = 1 ↔
      (zalloc ≠ NULL ∧ create_rc = 0)) ∧
    ((ossl_crypto_thread_native_spawn t zalloc create_rc).ret = 1 ∨
      (ossl_crypto_thread_native_spawn t zalloc create_rc).ret = 0) ∧
    ((ossl_crypto_thread_native_spawn t zalloc create_rc).ret = 1 →
      (ossl_crypto_thread_native_spawn t zalloc create_rc).thread.handle = zalloc ∧
      (ossl_crypto_thread_native_spawn t zalloc create_rc).thread.handle ≠ NULL ∧
      ∀ p, Event.OPENSSL_free p ∉ (ossl_crypto_thread_native_spawn t zalloc create_rc).events) ∧
    ((ossl_crypto_thread_native_spawn t zalloc create_rc).ret = 0 →
      (ossl_crypto_thread_native_spawn t zalloc create_rc).thread.handle = NULL ∧
      Event.OPENSSL_free zalloc ∈ (ossl_crypto_thread_native_spawn t zalloc create_rc).events) ∧
    (ossl_crypto_thread_native_spawn t zalloc create_rc).thread.state = t.state ∧
    (ossl_crypto_thread_native_spawn t zalloc create_rc).thread.retval = t.retval := by
  unfold ossl_crypto_thread_native_spawn
  by_cases h1 : zalloc = NULL
  · simp [h1]
  · by_cases h2 : create_rc = 0
    · simp [h1, h2]
    · simp [h1, h2]

/-- C10: on a well-formed layout every lifecycle step (the completion step of
the start thunk, join, terminate, spawn) keeps each of FINISHED, TERMINATED,
JOINED that was set, and clears no bit of the state other than the error
variants of JOINED and TERMINATED. -/
theorem lifecycle_flags_preserved (P : Platform) (hP : P.WellFormed) :
    (∀ (t : CRYPTO_THREAD) (r : CRYPTO_THREAD_RETVAL),
      LifecyclePreserved P t (thread_start_thunk P t r).1) ∧
    (∀ (t : CRYPTO_THREAD) (slot : Option CRYPTO_THREAD_RETVAL) (native : JoinReply)
        (ws : List (Option CRYPTO_THREAD_RETVAL)) (res : JoinResult) (t_out : CRYPTO_THREAD),
      ossl_crypto_thread_native_join P (some t) slot native ws = some res →
      res.thread = some t_out → LifecyclePreserved P t t_out) ∧
    (∀ (t : CRYPTO_THREAD) (cancel_rc : Int) (native : JoinReply) (t_out : CRYPTO_THREAD),
      (ossl_crypto_thread_native_terminate P (some t) cancel_rc native).thread = some t_out →
      LifecyclePreserved P t t_out) ∧
    (∀ (t : CRYPTO_THREAD) (zalloc : Ptr) (create_rc : Int),
      LifecyclePreserved P t (ossl_crypto_thread_native_spawn t zalloc create_rc).thread) := by
  refine ⟨?_, ?_, ?_, ?_⟩
  · intro t r
    apply lifecycle_of_bits P hP
    intro k hk hk2
    simp [thunk_testBit, hk] at hk2
  · intro t slot native ws res t_out hj ht
    apply lifecycle_of_bits P hP
    intro k hk hk2
    obtain ⟨tw, ev, hm, hcase⟩ := join_cases P t slot native ws res hj
    have hkw := hm k hk
    rcases hcase with e | e
    · rw [e, join_pass_eq] at ht
      simp only [Option.some.injEq] at ht
      rw [← ht, join_pass_thread_testBit, hkw] at hk2
      simp at hk2
      exact Or.inl hk2.1.symm
    · rw [e, join_fail_eq] at ht
      simp only [Option.some.injEq] at ht
      rw [← ht, join_fail_thread_testBit, hkw] at hk2
      simp at hk2
  · intro t cancel_rc native t_out ht
    apply lifecycle_of_bits P hP
    intro k hk hk2
    by_cases hs : t.handle = NULL ∨ t.state.testBit P.finished_bit = true ∨
        t.state.testBit P.terminated_bit = true ∨ t.state.testBit P.joined_bit = true
    · rw [terminate_short_circuit P t cancel_rc native hs, terminate_terminated_eq] at ht
      simp only [Option.some.injEq] at ht
      rw [← ht, terminated_thread_testBit, hk] at hk2
      simp at hk2
      exact Or.inr hk2.1.symm
    · simp only [not_or, Bool.not_eq_true] at hs
      obtain ⟨hh, hF, hT, hJ⟩ := hs
      rw [terminate_running P t cancel_rc native hh hF hT hJ] at ht
      split at ht
      · simp only [Option.some.injEq] at ht
        rw [← ht, CRYPTO_THREAD_TERMINATED, set_error_testBit, hk] at hk2
        simp at hk2
      · split at ht
        · simp only [Option.some.injEq] at ht
          rw [← ht, hk] at hk2
          cases hk2
        · simp only [Option.some.injEq] at ht
          rw [← ht, terminated_thread_testBit] at hk2
          simp only [hk] at hk2
          simp at hk2
          exact Or.inr hk2.1.symm
  · intro t zalloc create_rc
    apply lifecycle_of_bits P hP
    intro k hk hk2
    have hst : (ossl_crypto_thread_native_spawn t zalloc create_rc).thread.state = t.state :=
      (spawn_state t zalloc create_rc)
    rw [hst, hk] at hk2
    cases hk2

/-! ## Instances on concrete threads -/

/-- The theorem for C1 at the example layout: a running thread with handle 7
whose routine returns 42, joined with a slot holding 0. -/
theorem join_after_thunk_returns_result_witness :
    examplePlatform.WellFormed ∧ running_thread.handle ≠ NULL ∧
    CRYPTO_THREAD_GET_STATE running_thread (CRYPTO_THREAD_TERMINATED examplePlatform) = 0 ∧
    CRYPTO_THREAD_GET_STATE running_thread (CRYPTO_THREAD_JOINED examplePlatform) = 0 ∧
    ∃ res t_out,
      ossl_crypto_thread_native_join examplePlatform
        (some (thread_start_thunk examplePlatform running_thread 42).1) (some 0)
        { rc := 0, thread_retval := NULL } [] = some res ∧
      res.thread = some t_out ∧ res.ret = 1 ∧ res.retval = some 42 ∧
      CRYPTO_THREAD_GET_STATE t_out (CRYPTO_THREAD_FINISHED examplePlatform) ≠ 0 ∧
      CRYPTO_THREAD_GET_STATE t_out (CRYPTO_THREAD_JOINED examplePlatform) ≠ 0 ∧
      CRYPTO_THREAD_GET_ERROR examplePlatform t_out (CRYPTO_THREAD_JOINED examplePlatform) = 0 :=
  ⟨by decide, by decide, by decide, by decide,
    join_after_thunk_returns_result examplePlatform (by decide) running_thread 42 0 []
      (by decide) (by decide) (by decide)⟩

/-- The theorem for C2 at the example layout: two joins on a finished thread
whose native join fails with code 3. -/
theorem join_twice_same_outcome_witness :
    examplePlatform.WellFormed ∧
    (CRYPTO_THREAD_GET_STATE failed_join_thread (CRYPTO_THREAD_FINISHED examplePlatform) ≠ 0 ∨
      CRYPTO_THREAD_GET_STATE failed_join_thread
        (CRYPTO_THREAD_TERMINATED examplePlatform) ≠ 0 ∨
      CRYPTO_THREAD_GET_STATE failed_join_thread (CRYPTO_THREAD_JOINED examplePlatform) ≠ 0) ∧
    ∃ r1 t1 r2,
      ossl_crypto_thread_native_join examplePlatform (some failed_join_thread) (some 0)
        { rc := 3, thread_retval := NULL } [] = some r1 ∧
      r1.thread = some t1 ∧
      ossl_crypto_thread_native_join examplePlatform (some t1) (some 1)
        { rc := 3, thread_retval := NULL } [] = some r2 ∧
      r2.ret = r1.ret ∧
      (r1.ret = 1 → r1.retval = (some 0).map (fun _ => failed_join_thread.retval) ∧
        r2.retval = (some 1).map (fun _ => failed_join_thread.retval)) :=
  ⟨by decide, by decide,
    join_twice_same_outcome examplePlatform (by decide) failed_join_thread (some 0) (some 1)
      { rc := 3, thread_retval := NULL } [] [] (by decide)⟩

/-- The theorem for C3 at the example layout: terminate on a finished thread. -/
theorem terminate_idempotent_frame_witness :
    examplePlatform.WellFormed ∧
    (failed_join_thread.handle = NULL ∨
      CRYPTO_THREAD_GET_STATE failed_join_thread (CRYPTO_THREAD_FINISHED examplePlatform) ≠ 0 ∨
      CRYPTO_THREAD_GET_STATE failed_join_thread
        (CRYPTO_THREAD_TERMINATED examplePlatform) ≠ 0 ∨
      CRYPTO_THREAD_GET_STATE failed_join_thread (CRYPTO_THREAD_JOINED examplePlatform) ≠ 0) ∧
    ∃ t_out,
      ossl_crypto_thread_native_terminate examplePlatform (some failed_join_thread) 0
          { rc := 0, thread_retval := NULL } =
        { ret := 1, thread := some t_out, events := [] } ∧
      CRYPTO_THREAD_GET_STATE t_out (CRYPTO_THREAD_TERMINATED examplePlatform) ≠ 0 ∧
      CRYPTO_THREAD_GET_ERROR examplePlatform t_out
        (CRYPTO_THREAD_TERMINATED examplePlatform) = 0 ∧
      t_out.retval = failed_join_thread.retval ∧ t_out.handle = failed_join_thread.handle ∧
      t_out.joinable = failed_join_thread.joinable ∧
      ∀ k, k ≠ examplePlatform.terminated_bit →
        k ≠ examplePlatform.terminated_bit + examplePlatform.error_shift →
        t_out.state.testBit k = failed_join_thread.state.testBit k :=
  ⟨by decide, by decide,
    terminate_idempotent_frame examplePlatform (by decide) failed_join_thread 0
      { rc := 0, thread_retval := NULL } (by decide)⟩

/-- The theorem for C4 at the example layout: join on a finished thread whose
native join reports a cancelled thread. -/
theorem join_failure_iff_witness :
    examplePlatform.WellFormed ∧
    CRYPTO_THREAD_GET_STATE failed_join_thread (CRYPTO_THREAD_FINISHED examplePlatform) ≠ 0 ∧
    CRYPTO_THREAD_GET_STATE failed_join_thread (CRYPTO_THREAD_TERMINATED examplePlatform) = 0 ∧
    CRYPTO_THREAD_GET_STATE failed_join_thread (CRYPTO_THREAD_JOINED examplePlatform) = 0 ∧
    ∃ res t_out,
      ossl_crypto_thread_native_join examplePlatform (some failed_join_thread) (some 0)
        { rc := 0, thread_retval := examplePlatform.PTHREAD_CANCELED } [] = some res ∧
      res.thread = some t_out ∧
      (res.ret = 0 ↔ (failed_join_thread.handle = NULL ∨ (0 : Int) ≠ 0 ∨
        examplePlatform.PTHREAD_CANCELED ≠ NULL)) ∧
      (res.ret = 0 →
        CRYPTO_THREAD_GET_ERROR examplePlatform t_out (CRYPTO_THREAD_JOINED examplePlatform) ≠ 0 ∧
        CRYPTO_THREAD_GET_STATE t_out (CRYPTO_THREAD_JOINED examplePlatform) = 0 ∧
        res.retval = some 0) :=
  ⟨by decide, by decide, by decide, by decide,
    join_failure_iff examplePlatform (by decide) failed_join_thread (some 0)
      { rc := 0, thread_retval := examplePlatform.PTHREAD_CANCELED } []
      (by decide) (by decide) (by decide)⟩

/-- The amended C6 at the example layout: join on a joined thread, terminate
on a terminated thread, join on a finished thread with the JOINED error bit
recorded, and terminate on a running thread with the TERMINATED error bit
recorded. -/
theorem repeated_call_after_success_witness :
    examplePlatform.WellFormed ∧
    CRYPTO_THREAD_GET_STATE joined_terminated_thread
      (CRYPTO_THREAD_JOINED examplePlatform) ≠ 0 ∧
    CRYPTO_THREAD_GET_STATE joined_terminated_thread
      (CRYPTO_THREAD_TERMINATED examplePlatform) ≠ 0 ∧
    (∃ t_out,
      ossl_crypto_thread_native_join examplePlatform (some joined_terminated_thread) (some 0)
          { rc := 3, thread_retval := NULL } [] =
        some { ret := 1, thread := some t_out,
               retval := (some 0).map (fun _ => joined_terminated_thread.retval),
               events := [] } ∧
      CRYPTO_THREAD_GET_STATE t_out (CRYPTO_THREAD_JOINED examplePlatform) ≠ 0 ∧
      CRYPTO_THREAD_GET_ERROR examplePlatform t_out (CRYPTO_THREAD_JOINED examplePlatform) = 0) ∧
    (∃ t_out,
      ossl_crypto_thread_native_terminate examplePlatform (some joined_terminated_thread) 3
          { rc := 3, thread_retval := NULL } =
        { ret := 1, thread := some t_out, events := [] } ∧
      CRYPTO_THREAD_GET_STATE t_out (CRYPTO_THREAD_TERMINATED examplePlatform) ≠ 0 ∧
      CRYPTO_THREAD_GET_ERROR examplePlatform t_out
        (CRYPTO_THREAD_TERMINATED examplePlatform) = 0) ∧
    (CRYPTO_THREAD_GET_ERROR examplePlatform failed_join_thread
        (CRYPTO_THREAD_JOINED examplePlatform) ≠ 0 ∧
      CRYPTO_THREAD_GET_STATE failed_join_thread (CRYPTO_THREAD_FINISHED examplePlatform) ≠ 0 ∧
      CRYPTO_THREAD_GET_STATE failed_join_thread (CRYPTO_THREAD_TERMINATED examplePlatform) = 0 ∧
      CRYPTO_THREAD_GET_STATE failed_join_thread (CRYPTO_THREAD_JOINED examplePlatform) = 0 ∧
      failed_join_thread.handle ≠ NULL ∧
      ∃ res,
        ossl_crypto_thread_native_join examplePlatform (some failed_join_thread) (some 0)
          { rc := 0, thread_retval := NULL } [] = some res ∧
        res.events = [Event.pthread_join failed_join_thread.handle] ∧
        (res.ret = 1 ↔ ((0 : Int) = 0 ∧ NULL = NULL))) ∧
    (CRYPTO_THREAD_GET_ERROR examplePlatform failed_terminate_thread
        (CRYPTO_THREAD_TERMINATED examplePlatform) ≠ 0 ∧
      CRYPTO_THREAD_GET_STATE failed_terminate_thread
        (CRYPTO_THREAD_FINISHED examplePlatform) = 0 ∧
      CRYPTO_THREAD_GET_STATE failed_terminate_thread
        (CRYPTO_THREAD_TERMINATED examplePlatform) = 0 ∧
      CRYPTO_THREAD_GET_STATE failed_terminate_thread
        (CRYPTO_THREAD_JOINED examplePlatform) = 0 ∧
      failed_terminate_thread.handle ≠ NULL ∧
      (ossl_crypto_thread_native_terminate examplePlatform (some failed_terminate_thread) 0
          { rc := 0, thread_retval := examplePlatform.PTHREAD_CANCELED }).events.head? =
        some (Event.pthread_cancel failed_terminate_thread.handle) ∧
      ((ossl_crypto_thread_native_terminate examplePlatform (some failed_terminate_thread) 0
          { rc := 0, thread_retval := examplePlatform.PTHREAD_CANCELED }).ret = 1 ↔
        ((0 : Int) = 0 ∧ (0 : Int) = 0 ∧
          examplePlatform.PTHREAD_CANCELED = examplePlatform.PTHREAD_CANCELED))) :=
  ⟨by decide, by decide, by decide,
    (repeated_call_after_success examplePlatform (by decide) joined_terminated_thread).1
      (by decide) (some 0) { rc := 3, thread_retval := NULL } [],
    (repeated_call_after_success examplePlatform (by decide) joined_terminated_thread).2.1
      (by decide) 3 { rc := 3, thread_retval := NULL },
    ⟨by decide, by decide, by decide, by decide, by decide,
      (repeated_call_after_success examplePlatform (by decide) failed_join_thread).2.2.1
        (by decide) (by decide) (by decide) (by decide) (some 0)
        { rc := 0, thread_retval := NULL } []⟩,
    ⟨by decide, by decide, by decide, by decide, by decide,
      (repeated_call_after_success examplePlatform (by decide) failed_terminate_thread).2.2.2
        (by decide) (by decide) (by decide) (by decide) 0
        { rc := 0, thread_retval := examplePlatform.PTHREAD_CANCELED }⟩⟩

/-- The theorem for C7 at the example layout: terminate on a running thread
with a confirmed cancellation. -/
theorem terminate_running_handle_witness :
    examplePlatform.WellFormed ∧ running_thread.handle ≠ NULL ∧
    CRYPTO_THREAD_GET_STATE running_thread (CRYPTO_THREAD_FINISHED examplePlatform) = 0 ∧
    CRYPTO_THREAD_GET_STATE running_thread (CRYPTO_THREAD_TERMINATED examplePlatform) = 0 ∧
    CRYPTO_THREAD_GET_STATE running_thread (CRYPTO_THREAD_JOINED examplePlatform) = 0 ∧
    ∃ t_out,
      (ossl_crypto_thread_native_terminate examplePlatform (some running_thread) 0
        { rc := 0, thread_retval := examplePlatform.PTHREAD_CANCELED }).thread = some t_out ∧
      (t_out.handle = NULL ↔
        ((0 : Int) = 0 ∧ (0 : Int) = 0 ∧
          examplePlatform.PTHREAD_CANCELED = examplePlatform.PTHREAD_CANCELED)) ∧
      (((0 : Int) = 0 ∧ (0 : Int) = 0 ∧
          examplePlatform.PTHREAD_CANCELED = examplePlatform.PTHREAD_CANCELED) →
        (ossl_crypto_thread_native_terminate examplePlatform (some running_thread) 0
          { rc := 0, thread_retval := examplePlatform.PTHREAD_CANCELED }).ret = 1 ∧
        CRYPTO_THREAD_GET_STATE t_out (CRYPTO_THREAD_TERMINATED examplePlatform) ≠ 0 ∧
        CRYPTO_THREAD_GET_ERROR examplePlatform t_out
          (CRYPTO_THREAD_TERMINATED examplePlatform) = 0) ∧
      (¬ ((0 : Int) = 0 ∧ (0 : Int) = 0 ∧
          examplePlatform.PTHREAD_CANCELED = examplePlatform.PTHREAD_CANCELED) →
        (ossl_crypto_thread_native_terminate examplePlatform (some running_thread) 0
          { rc := 0, thread_retval := examplePlatform.PTHREAD_CANCELED }).ret = 0 ∧
        t_out.handle = running_thread.handle) :=
  ⟨by decide, by decide, by decide, by decide, by decide,
    terminate_running_handle examplePlatform (by decide) running_thread 0
      { rc := 0, thread_retval := examplePlatform.PTHREAD_CANCELED }
      (by decide) (by decide) (by decide) (by decide)⟩

/-- The theorem for C8 at the example layout: terminate with a confirmed
cancellation and then join on a running thread; and join of a running thread
that is woken by the completion of its routine with result 42, then
terminate. -/
theorem terminate_then_join_and_back_witness :
    examplePlatform.WellFormed ∧
    (∃ t1, (ossl_crypto_thread_native_terminate examplePlatform (some running_thread) 0
          { rc := 0, thread_retval := examplePlatform.PTHREAD_CANCELED }).thread = some t1 ∧
      ∀ (slot : Option CRYPTO_THREAD_RETVAL) (native2 : JoinReply)
        (ws : List (Option CRYPTO_THREAD_RETVAL)),
      ∃ t2, ossl_crypto_thread_native_join examplePlatform (some t1) slot native2 ws =
          some { ret := 1, thread := some t2,
                 retval := slot.map (fun _ => running_thread.retval), events := [] } ∧
        CRYPTO_THREAD_GET_STATE t2 (CRYPTO_THREAD_TERMINATED examplePlatform) ≠ 0 ∧
        t2.handle = NULL) ∧
    (∀ (cancel_rc : Int) (native2 : JoinReply),
      ∃ t2, ossl_crypto_thread_native_terminate examplePlatform
          (some { running_thread with state := 1 <<< 1 ||| 1 <<< 2, retval := 42 })
          cancel_rc native2 =
          { ret := 1, thread := some t2, events := [] } ∧
        t2.handle = 7) :=
  ⟨by decide,
    (terminate_then_join_and_back examplePlatform (by decide)).1 running_thread 0
      { rc := 0, thread_retval := examplePlatform.PTHREAD_CANCELED }
      (by decide) (by decide) (by decide) (by decide) (by decide),
    (terminate_then_join_and_back examplePlatform (by decide)).2 running_thread (some 0)
      { rc := 0, thread_retval := NULL } [some 42]
      { ret := 1,
        thread := some { running_thread with state := 1 <<< 1 ||| 1 <<< 2, retval := 42 },
        retval := some 42, events := [Event.condvar_wait, Event.pthread_join 7] }
      { running_thread with state := 1 <<< 1 ||| 1 <<< 2, retval := 42 }
      (by decide) (by decide) (by decide)⟩

/-- The theorem for C10 at the example layout: the four steps on concrete
threads, among them a join that replaces the error variant of JOINED. -/
theorem lifecycle_flags_preserved_witness :
    examplePlatform.WellFormed ∧
    LifecyclePreserved examplePlatform running_thread
      (thread_start_thunk examplePlatform running_thread 42).1 ∧
    LifecyclePreserved examplePlatform failed_join_thread
      { failed_join_thread with state := 1 <<< 1 ||| 1 <<< 2 } ∧
    LifecyclePreserved examplePlatform failed_terminate_thread
      { failed_terminate_thread with state := 1 <<< 3, handle := NULL } ∧
    LifecyclePreserved examplePlatform failed_join_thread
      (ossl_crypto_thread_native_spawn failed_join_thread 9 0).thread :=
  ⟨by decide,
    (lifecycle_flags_preserved examplePlatform (by decide)).1 running_thread 42,
    (lifecycle_flags_preserved examplePlatform (by decide)).2.1 failed_join_thread (some 0)
      { rc := 0, thread_retval := NULL } []
      { ret := 1, thread := some { failed_join_thread with state := 1 <<< 1 ||| 1 <<< 2 },
        retval := some 42, events := [Event.pthread_join 7] }
      { failed_join_thread with state := 1 <<< 1 ||| 1 <<< 2 } (by decide) rfl,
    (lifecycle_flags_preserved examplePlatform (by decide)).2.2.1 failed_terminate_thread 0
      { rc := 0, thread_retval := examplePlatform.PTHREAD_CANCELED }
      { failed_terminate_thread with state := 1 <<< 3, handle := NULL } (by decide),
    (lifecycle_flags_preserved examplePlatform (by decide)).2.2.2 failed_join_thread 9 0⟩

end ThreadPosix
